import Mathlib

/-!
Verification development for the ontologyForm clinical-records front end.

The TypeScript sources are shallowly embedded as Lean definitions:
* JS strings are `String`; optional (possibly `undefined`) fields are `Option`;
* `Date` values are carried as their ISO-8601 string rendering, so
  `toISOString` is the identity and the clock reading of `new Date()` is
  passed in explicitly as a `now : String` argument;
* the JS idiom `a || b` on strings (falsy means `undefined` or the empty
  string) is embedded as `jsOrStr`;
* HTTP and timer effects are embedded as explicit state passing: an
  `ApiService` method is a function of the (abstract) fetch outcome, and the
  debounced search is a transition system whose pending `setTimeout` timer is
  part of the state.
-/

namespace OntologyForm

/-- JS `a || b` for an optional string `a`: the fallback `b` is used when `a`
is `undefined` or the empty string (both falsy in JS). -/
def jsOrStr : Option String → String → String
  | some s, d => if s = "" then d else s
  | none, d => d

/-- JS `a || b` for an optional number `a`: falsy means `undefined` or `0`. -/
def jsOrNum : Option Int → Int → Int
  | some n, d => if n = 0 then d else n
  | none, d => d

/-! ## FHIR core datatypes (src/data/datatypes, mirrored with the fields the
converters and views use; unused optional FHIR fields are omitted) -/

structure Coding where
  system : Option String
  code : Option String
  display : Option String
deriving Repr, DecidableEq

structure CodeableConcept where
  coding : Option (List Coding)
  text : Option String
deriving Repr, DecidableEq

structure Reference where
  reference : Option String
  type : Option String
deriving Repr, DecidableEq

structure Period where
  start : Option String
  «end» : Option String
deriving Repr, DecidableEq

structure Quantity where
  value : Option String
  unit : Option String
  system : Option String
  code : Option String
deriving Repr, DecidableEq

/-! ## Domain datatypes (src/domain/datatypes/Encounter.ts)

`EncounterType` is a TS union of five string literals; at runtime it is a
plain string (the source itself switches on it with a `default` branch for
values outside the union), so it is embedded as `String`. The `value` field
of an observation or medication is `string | number` in TS, but every value
the encounter form stores in it comes from a text input, so it is embedded
as `String`. -/

def supportedEncounterTypes : List String :=
  ["Ambulatory", "Home", "Emergency", "Hospitalization", "Virtual"]

structure Observation where
  loincCode : String
  method : String
  unitOfMeasure : String
  value : String
deriving Repr, DecidableEq

structure Medication where
  loincCode : String
  method : String
  unitOfMeasure : String
  value : String
deriving Repr, DecidableEq

structure Diagnosis where
  description : String
  diagnosisCode : String
  status : String
deriving Repr, DecidableEq

structure Allergy where
  description : String
  active : Bool
deriving Repr, DecidableEq

structure ClinicalEncounter where
  id : String
  encounterType : String
  startDate : String
  endDate : Option String
  observations : List Observation
  medications : List Medication
  diagnoses : List Diagnosis
  allergies : List Allergy
deriving Repr, DecidableEq

/-- `Omit<ClinicalEncounter, 'id'>`: the shape the encounter form submits. -/
structure NewClinicalEncounter where
  encounterType : String
  startDate : String
  endDate : Option String
  observations : List Observation
  medications : List Medication
  diagnoses : List Diagnosis
  allergies : List Allergy
deriving Repr, DecidableEq

/-! ## FHIR resource shapes used by the converters and the detail view -/

structure FHIREncounter where
  id : Option String
  resourceType : String
  status : String
  «class» : Coding
  subject : Reference
  period : Option Period
deriving Repr, DecidableEq

/-! ## FHIR converters (src/services/fhirConverters.ts) -/

def createPatientReference (patientId : String) : Reference :=
  { reference := some ("Patient/" ++ patientId), type := some "Patient" }

def createEncounterReference (encounterId : String) : Reference :=
  { reference := some ("Encounter/" ++ encounterId), type := some "Encounter" }

def createCoding (system code display : String) : Coding :=
  { system := some system, code := some code, display := some display }

def createCodeableConcept (coding : List Coding) (text : Option String) : CodeableConcept :=
  { coding := some coding, text := text }

/-- The `switch (encounterType)` of `mapEncounterTypeToFHIRClass`, with the
`default` branch returning the ambulatory coding. -/
def mapEncounterTypeToFHIRClass (encounterType : String) : Coding :=
  if encounterType = "Ambulatory" then
    createCoding "http://terminology.hl7.org/CodeSystem/v3-ActCode" "AMB" "ambulatory"
  else if encounterType = "Emergency" then
    createCoding "http://terminology.hl7.org/CodeSystem/v3-ActCode" "EMER" "emergency"
  else if encounterType = "Hospitalization" then
    createCoding "http://terminology.hl7.org/CodeSystem/v3-ActCode" "IMP" "inpatient encounter"
  else if encounterType = "Virtual" then
    createCoding "http://terminology.hl7.org/CodeSystem/v3-ActCode" "VR" "virtual"
  else if encounterType = "Home" then
    createCoding "http://terminology.hl7.org/CodeSystem/v3-ActCode" "HH" "home health"
  else
    createCoding "http://terminology.hl7.org/CodeSystem/v3-ActCode" "AMB" "ambulatory"

/-- JS `toLowerCase()`: lower-case every character of the string (written as
a plain character map so that proofs can evaluate it). -/
def toLowerCase (s : String) : String := ⟨s.data.map Char.toLower⟩

/-- The local `mapFHIRClassToEncounterType` inside `fromFHIREncounter`: the
class code is lower-cased (`fhirClass.code?.toLowerCase()`) and switched on,
with `default` (including a missing code) returning `Ambulatory`. -/
def mapFHIRClassToEncounterType (fhirClass : Coding) : String :=
  match fhirClass.code.map toLowerCase with
  | some "amb" => "Ambulatory"
  | some "emer" => "Emergency"
  | some "imp" => "Hospitalization"
  | some "vr" => "Virtual"
  | some "hh" => "Home"
  | _ => "Ambulatory"

/-- `fromFHIREncounter`; `now` is the clock reading substituted for a missing
`period.start` (`new Date()` in the source). -/
def fromFHIREncounter (now : String) (fhirEncounter : FHIREncounter) : ClinicalEncounter :=
  { id := fhirEncounter.id.getD "unknown"
    encounterType := mapFHIRClassToEncounterType fhirEncounter.class
    startDate := (fhirEncounter.period.bind Period.start).getD now
    endDate := fhirEncounter.period.bind Period.end
    observations := []
    medications := []
    diagnoses := []
    allergies := [] }

/-- `toFHIREncounter`: the produced resource has no `id` (the TS return type
is `Omit<FHIREncounter, 'id'>`), embedded as `id := none`. -/
def toFHIREncounter (clinicalEncounter : NewClinicalEncounter) (patientId : String) : FHIREncounter :=
  { id := none
    resourceType := "Encounter"
    status := "finished"
    «class» := mapEncounterTypeToFHIRClass clinicalEncounter.encounterType
    subject := createPatientReference patientId
    period := some { start := some clinicalEncounter.startDate
                     «end» := clinicalEncounter.endDate } }

/-! ## FHIR resource shapes fetched by the patient detail view -/

structure FHIRObservation where
  id : Option String
  code : Option CodeableConcept
  method : Option CodeableConcept
  valueQuantity : Option Quantity
  valueString : Option String
  encounter : Option Reference
deriving Repr, DecidableEq

structure DoseAndRate where
  doseQuantity : Option Quantity
deriving Repr, DecidableEq

structure DosageInstruction where
  text : Option String
  route : Option CodeableConcept
  doseAndRate : Option (List DoseAndRate)
deriving Repr, DecidableEq

structure FHIRMedicationRequest where
  id : Option String
  medicationCodeableConcept : Option CodeableConcept
  dosageInstruction : Option (List DosageInstruction)
  encounter : Option Reference
deriving Repr, DecidableEq

structure FHIRCondition where
  id : Option String
  clinicalStatus : Option CodeableConcept
  code : Option CodeableConcept
  encounter : Option Reference
deriving Repr, DecidableEq

structure AllergyReaction where
  manifestation : List CodeableConcept
  severity : String
deriving Repr, DecidableEq

structure FHIRAllergyIntolerance where
  id : Option String
  resourceType : String
  clinicalStatus : Option CodeableConcept
  verificationStatus : Option CodeableConcept
  type : Option String
  category : Option (List String)
  criticality : Option String
  code : Option CodeableConcept
  patient : Option Reference
  reaction : Option (List AllergyReaction)
  encounter : Option Reference
deriving Repr, DecidableEq

/-- `toFHIRAllergyIntolerance`: every field of the produced resource is
assigned unconditionally except `encounter`, which is attached only when an
`encounterId` is supplied. -/
def toFHIRAllergyIntolerance (allergy : Allergy) (patientId : String)
    (encounterId : Option String) : FHIRAllergyIntolerance :=
  let allergyCoding := createCoding "http://snomed.info/sct" "419199007" allergy.description
  let allergyConcept := createCodeableConcept [allergyCoding] (some allergy.description)
  { id := none
    resourceType := "AllergyIntolerance"
    clinicalStatus := some (createCodeableConcept
      [createCoding "http://terminology.hl7.org/CodeSystem/allergyintolerance-clinical"
        "active" "Active"] none)
    verificationStatus := some (createCodeableConcept
      [createCoding "http://terminology.hl7.org/CodeSystem/allergyintolerance-verification"
        "confirmed" "Confirmed"] none)
    type := some "allergy"
    category := some ["medication"]
    criticality := some "high"
    code := some allergyConcept
    patient := some (createPatientReference patientId)
    reaction := some [{ manifestation := [createCodeableConcept
                          [createCoding "http://snomed.info/sct" "419199007" "Allergic reaction"]
                          none]
                        severity := "moderate" }]
    encounter := encounterId.map createEncounterReference }

/-! ## Patient detail view aggregation (loadEncountersWithResources)

After fetching the four per-patient resource lists, the view attaches to
each clinical encounter exactly the fetched resources whose
`encounter?.reference` equals the string `Encounter/` followed by the id of
the encounter, mapping each to its domain shape. -/

/-- `obs.code?.coding?.[0]?.code` and the other optional-chaining accessors:
first coding of an optional codeable concept. -/
def firstCoding (c : Option CodeableConcept) : Option Coding :=
  (c.bind CodeableConcept.coding).bind List.head?

def observationToDomain (obs : FHIRObservation) : Observation :=
  { loincCode := jsOrStr ((firstCoding obs.code).bind Coding.code) (jsOrStr obs.id "Unknown")
    method := jsOrStr (obs.method.bind CodeableConcept.text) "Unknown"
    unitOfMeasure := jsOrStr (obs.valueQuantity.bind Quantity.unit) "Unknown"
    value := jsOrStr (obs.valueQuantity.bind Quantity.value) (jsOrStr obs.valueString "Unknown") }

def medicationToDomain (med : FHIRMedicationRequest) : Medication :=
  let firstDosage := med.dosageInstruction.bind List.head?
  { loincCode := jsOrStr ((firstCoding med.medicationCodeableConcept).bind Coding.code)
      (jsOrStr med.id "Unknown")
    method := jsOrStr ((firstDosage.bind DosageInstruction.route).bind CodeableConcept.text)
      "Unknown"
    unitOfMeasure := jsOrStr ((((firstDosage.bind DosageInstruction.doseAndRate).bind
      List.head?).bind DoseAndRate.doseQuantity).bind Quantity.unit) "Unknown"
    value := jsOrStr (firstDosage.bind DosageInstruction.text) "Unknown" }

def conditionToDomain (cond : FHIRCondition) : Diagnosis :=
  { description := jsOrStr (cond.code.bind CodeableConcept.text)
      (jsOrStr ((firstCoding cond.code).bind Coding.display) "Unknown")
    diagnosisCode := jsOrStr ((firstCoding cond.code).bind Coding.code)
      (jsOrStr cond.id "Unknown")
    status := jsOrStr ((firstCoding cond.clinicalStatus).bind Coding.code) "unknown" }

/-- `allergy.clinicalStatus?.coding?.[0]?.code === 'active'`: how the detail
view reconstructs the domain `active` flag from a fetched resource. -/
def allergyActiveFromFHIR (allergy : FHIRAllergyIntolerance) : Bool :=
  (firstCoding allergy.clinicalStatus).bind Coding.code == some "active"

def allergyToDomain (allergy : FHIRAllergyIntolerance) : Allergy :=
  { description := jsOrStr (allergy.code.bind CodeableConcept.text)
      (jsOrStr ((firstCoding allergy.code).bind Coding.display) "Unknown")
    active := allergyActiveFromFHIR allergy }

/-- `resource.encounter?.reference === `Encounter/id`` on any of the four
fetched resource kinds (the accessor is passed in). -/
def matchesEncounter (encounterRef : Option Reference) (encounterId : String) : Bool :=
  encounterRef.bind Reference.reference == some ("Encounter/" ++ encounterId)

/-- The per-encounter grouping step of `loadEncountersWithResources`:
filter each fetched list by the encounter reference and map to the domain
shape, leaving the other encounter fields unchanged. -/
def attachEncounterResources (encounter : ClinicalEncounter)
    (fetchedObservations : List FHIRObservation)
    (fetchedMedications : List FHIRMedicationRequest)
    (fetchedConditions : List FHIRCondition)
    (fetchedAllergies : List FHIRAllergyIntolerance) : ClinicalEncounter :=
  let encounterId := encounter.id
  { encounter with
    observations := (fetchedObservations.filter
      (fun obs => matchesEncounter obs.encounter encounterId)).map observationToDomain
    medications := (fetchedMedications.filter
      (fun med => matchesEncounter med.encounter encounterId)).map medicationToDomain
    diagnoses := (fetchedConditions.filter
      (fun cond => matchesEncounter cond.encounter encounterId)).map conditionToDomain
    allergies := (fetchedAllergies.filter
      (fun allergy => matchesEncounter allergy.encounter encounterId)).map allergyToDomain }

/-! ## FHIR Patient resource and its domain conversion -/

structure HumanName where
  text : Option String
  family : Option String
  given : Option (List String)
deriving Repr, DecidableEq

structure ContactPoint where
  system : Option String
  value : Option String
  use : Option String
deriving Repr, DecidableEq

structure Address where
  line : Option (List String)
  city : Option String
  district : Option String
  state : Option String
  postalCode : Option String
  country : Option String
deriving Repr, DecidableEq

structure Identifier where
  type : Option CodeableConcept
  value : Option String
deriving Repr, DecidableEq

structure FHIRPatient where
  id : Option String
  identifier : Option (List Identifier)
  name : Option (List HumanName)
  telecom : Option (List ContactPoint)
  gender : Option String
  birthDate : Option String
  deceasedDateTime : Option String
  address : Option (List Address)
  height : Option Int
  weight : Option Int
deriving Repr, DecidableEq

structure IdentityDocument where
  identificationType : String
  country : String
  identificationValue : String
deriving Repr, DecidableEq

structure ContactMeans where
  cellular : String
  email : String
  phone : String
deriving Repr, DecidableEq

structure DomainAddress where
  neighborhood : String
  street : String
  city : String
  postalCode : String
  department : String
  doorNumber : String
  apartmentNumber : String
deriving Repr, DecidableEq

structure PatientData where
  contactMeans : ContactMeans
  height : Int
  weight : Int
  address : DomainAddress
deriving Repr, DecidableEq

structure DomainPatient where
  identityDocument : IdentityDocument
  dateOfBirth : String
  firstName : String
  lastName : String
  gender : String
  patientData : PatientData
deriving Repr, DecidableEq

/-- `toDomain` for patients (fhirPatient.ts); `now` is the clock reading
substituted for a missing `birthDate` (`new Date()` in the source). -/
def patientToDomain (now : String) (fhirPatient : FHIRPatient) : DomainPatient :=
  let firstIdentifier := fhirPatient.identifier.bind List.head?
  let firstName? := fhirPatient.name.bind List.head?
  let firstAddress := fhirPatient.address.bind List.head?
  let telecom := fhirPatient.telecom.getD []
  { identityDocument :=
      { identificationType := jsOrStr ((firstCoding (firstIdentifier.bind
          Identifier.type)).bind Coding.code) "Unknown"
        country := jsOrStr (firstAddress.bind Address.country) "Unknown"
        identificationValue := jsOrStr (firstIdentifier.bind Identifier.value)
          (jsOrStr fhirPatient.id "Unknown") }
    dateOfBirth := (fhirPatient.birthDate.bind
      (fun d => if d = "" then none else some d)).getD now
    firstName := jsOrStr ((firstName?.bind HumanName.given).bind List.head?) "Unknown"
    lastName := jsOrStr (firstName?.bind HumanName.family) "Unknown"
    gender := jsOrStr fhirPatient.gender "unknown"
    patientData :=
      { contactMeans :=
          { cellular := jsOrStr ((telecom.find? (fun t =>
              t.system == some "phone" && t.use == some "mobile")).bind
              ContactPoint.value) ""
            email := jsOrStr ((telecom.find? (fun t =>
              t.system == some "email")).bind ContactPoint.value) ""
            phone := jsOrStr ((telecom.find? (fun t =>
              t.system == some "phone" && t.use == some "home")).bind
              ContactPoint.value) "" }
        height := jsOrNum fhirPatient.height 0
        weight := jsOrNum fhirPatient.weight 0
        address :=
          { neighborhood := jsOrStr (firstAddress.bind Address.district) ""
            street := jsOrStr ((firstAddress.bind Address.line).map
              (String.intercalate " ")) ""
            city := jsOrStr (firstAddress.bind Address.city) ""
            postalCode := jsOrStr (firstAddress.bind Address.postalCode) ""
            department := jsOrStr (firstAddress.bind Address.state) ""
            doorNumber := ""
            apartmentNumber := "" } } }

/-! ## API client (src/services/apiService.ts)

The HTTP layer is embedded as explicit outcome passing: a method is a
function of what `fetch` did (a response with a status and a parsed body,
or a network failure), and a thrown JS error is `Except.error`. `request`
never sets the `message` field of its result. -/

structure ApiResponse (α : Type) where
  data : α
  status : Nat
  message : Option String
deriving Repr, DecidableEq

/-- The backend response envelope unwrapped by the list and create methods. -/
structure Envelope (α : Type) where
  success : Bool
  data : α
  count : Option Nat
  message : String
deriving Repr, DecidableEq

/-- What `fetch` produced: a response (with its HTTP status, its body text
and its parsed JSON body) or a network failure. -/
inductive FetchOutcome (β : Type) where
  | response (status : Nat) (bodyText : String) (body : β)
  | networkError (msg : String)
deriving Repr, DecidableEq

/-- `response.ok`: the HTTP status is in the 2xx range. -/
def httpOk (status : Nat) : Bool := decide (200 ≤ status ∧ status < 300)

/-- `ApiService.request`: a non-ok response throws
`HTTP error! status: {status} - {errorText}`; the catch block rethrows, so a
network failure propagates unchanged; only an ok response yields a result,
built from the parsed body and the status. -/
def request (outcome : FetchOutcome β) : Except String (ApiResponse β) :=
  match outcome with
  | .networkError msg => .error msg
  | .response status bodyText body =>
    if httpOk status then
      .ok { data := body, status := status, message := none }
    else
      .error ("HTTP error! status: " ++ toString status ++ " - " ++ bodyText)

/-- The unwrapping step shared by the list and create methods: the returned
`data` is the envelope inner `data` and the `message` is the envelope
`message`. -/
def unwrapEnvelope (r : ApiResponse (Envelope α)) : ApiResponse α :=
  { data := r.data.data, status := r.status, message := some r.data.message }

/-- `ApiService.getPatients`: requests the envelope and unwraps it. -/
def getPatients (outcome : FetchOutcome (Envelope (List FHIRPatient))) :
    Except String (ApiResponse (List FHIRPatient)) :=
  (request outcome).map unwrapEnvelope

/-- `ApiService.getPatientById`: returns `this.request(...)` directly, with
no unwrapping step. -/
def getPatientById (outcome : FetchOutcome β) : Except String (ApiResponse β) :=
  request outcome

/-- `ApiService.updatePatient`: builds JSON-Patch operations and returns
`this.request(...)` directly, with no unwrapping step. -/
def updatePatient (outcome : FetchOutcome β) : Except String (ApiResponse β) :=
  request outcome

/-- `ApiService.markPatientAsDeceased`: PATCHes the deceased date and returns
`this.request(...)` directly, with no unwrapping step. -/
def markPatientAsDeceased (outcome : FetchOutcome β) : Except String (ApiResponse β) :=
  request outcome

/-- `ApiService.getPatientEncounters`: requests the envelope and unwraps it. -/
def getPatientEncounters (outcome : FetchOutcome (Envelope (List FHIREncounter))) :
    Except String (ApiResponse (List FHIREncounter)) :=
  (request outcome).map unwrapEnvelope

/-- `ApiService.createEncounter`: POSTs the encounter and unwraps the
envelope of the response. -/
def createEncounter (outcome : FetchOutcome (Envelope FHIREncounter)) :
    Except String (ApiResponse FHIREncounter) :=
  (request outcome).map unwrapEnvelope

/-- What the claim about getPatientById would require: requesting the
envelope and unwrapping it like `getPatients` does. Stated from the spec
words for comparison with the source definition above. -/
def getPatientByIdSpec (outcome : FetchOutcome (Envelope β)) :
    Except String (ApiResponse β) :=
  (request outcome).map unwrapEnvelope

/-! ## Patients view-model (src/presentation/patient/PatientsViewModel.ts) -/

/-- The display shape of a patient row. -/
structure DisplayPatient where
  id : String
  name : String
  birthDate : String
  gender : String
  deathDate : Option String
deriving Repr, DecidableEq

structure PatientsViewModelState where
  patients : List DisplayPatient
  isLoading : Bool
  error : Option String
  selectedPatient : Option DisplayPatient
deriving Repr, DecidableEq

/-- The per-patient display mapping of `loadPatients` (its `try` branch,
which converts through `toDomain`). -/
def displayPatient (now : String) (fhirPatient : FHIRPatient) : DisplayPatient :=
  let domainPatient := patientToDomain now fhirPatient
  { id := fhirPatient.id.getD "-"
    name := domainPatient.firstName ++ " " ++ domainPatient.lastName
    birthDate := fhirPatient.birthDate.getD "-"
    gender :=
      if domainPatient.gender = "unknown" then "-"
      else if domainPatient.gender = "male" then "Masculino"
      else if domainPatient.gender = "female" then "Femenino"
      else if domainPatient.gender = "other" then "Otro"
      else domainPatient.gender
    deathDate := fhirPatient.deceasedDateTime.bind
      (fun d => if d = "" then none else some ((d.splitOn "T").headD d)) }

/-- The state update issued by `loadPatients` before awaiting the request:
`isLoading` is set and `error` is cleared. -/
def loadPatientsStart (s : PatientsViewModelState) : PatientsViewModelState :=
  { s with isLoading := true, error := none }

/-- The state update issued by `loadPatients` when the awaited request
settles: on success the display list is stored; on failure the error message
string is stored. Both branches clear `isLoading`, and both return a state
rather than rethrowing. -/
def loadPatientsSettle (now : String) (s : PatientsViewModelState)
    (result : Except String (List FHIRPatient)) : PatientsViewModelState :=
  match result with
  | .ok fhirPatients =>
    { s with isLoading := false, patients := fhirPatients.map (displayPatient now) }
  | .error msg =>
    { s with isLoading := false, error := some msg }

/-- The whole of `loadPatients` as a state transition, given the request
result. -/
def loadPatients (now : String) (s : PatientsViewModelState)
    (result : Except String (List FHIRPatient)) : PatientsViewModelState :=
  loadPatientsSettle now (loadPatientsStart s) result

/-! ## Encounter form (src/presentation/patient/EncounterForm.tsx)

The form component state is embedded as a record; each handler is a state
transition. Handlers that can issue network requests also return what they
send. -/

structure EncounterFormState where
  encounterType : String
  startDate : String
  endDate : String
  observations : List Observation
  newObservation : Observation
  observationNames : List String
  newObservationName : String
  medications : List Medication
  newMedication : Medication
  medicationNames : List String
  newMedicationName : String
  diagnoses : List Diagnosis
  newDiagnosis : Diagnosis
  diagnosisNames : List String
  newDiagnosisName : String
  allergies : List Allergy
  newAllergy : Allergy
  errors : List String
  isSubmitting : Bool
  submitError : Option String
  submitSuccess : Bool
deriving Repr, DecidableEq

/-- `addObservation`: the pending observation is appended only when its four
fields are all truthy (non-empty, since the form stores strings); otherwise
nothing changes. -/
def addObservation (s : EncounterFormState) : EncounterFormState :=
  if s.newObservation.loincCode ≠ "" ∧ s.newObservation.method ≠ "" ∧
      s.newObservation.unitOfMeasure ≠ "" ∧ s.newObservation.value ≠ "" then
    { s with observations := s.observations ++ [s.newObservation]
             observationNames := s.observationNames ++ [s.newObservationName]
             newObservation := { loincCode := "", method := "", unitOfMeasure := "", value := "" }
             newObservationName := "" }
  else s

/-- `addMedication`: same gating as `addObservation`, on the pending
medication. -/
def addMedication (s : EncounterFormState) : EncounterFormState :=
  if s.newMedication.loincCode ≠ "" ∧ s.newMedication.method ≠ "" ∧
      s.newMedication.unitOfMeasure ≠ "" ∧ s.newMedication.value ≠ "" then
    { s with medications := s.medications ++ [s.newMedication]
             medicationNames := s.medicationNames ++ [s.newMedicationName]
             newMedication := { loincCode := "", method := "", unitOfMeasure := "", value := "" }
             newMedicationName := "" }
  else s

/-- The error list computed by `validateForm` (which stores it with
`setErrors` and reports validity as its emptiness). -/
def validateFormErrors (s : EncounterFormState) : List String :=
  (if s.encounterType = "" then ["El tipo de encuentro es requerido"] else []) ++
  (if s.startDate = "" then ["La fecha de inicio es requerida"] else []) ++
  (if s.observations = [] ∧ s.medications = [] ∧ s.diagnoses = [] ∧ s.allergies = [] then
    ["Debe completar al menos una sección (Observaciones, Medicamentos, Diagnósticos o Alergias)"]
  else [])

/-- The clinical encounter object `handleSubmit` builds from the form state
(an empty `endDate` field is falsy and becomes `undefined`). -/
def formClinicalEncounter (s : EncounterFormState) : NewClinicalEncounter :=
  { encounterType := s.encounterType
    startDate := s.startDate
    endDate := if s.endDate = "" then none else some s.endDate
    observations := s.observations
    medications := s.medications
    diagnoses := s.diagnoses
    allergies := s.allergies }

/-- The synchronous prefix of `handleSubmit`: when `validateForm` fails, the
handler stores the errors and returns without any request (`none`); when it
passes, the submission flags are set and the first request — the POSTed FHIR
encounter — is issued (`some`). The asynchronous remainder (creating child
resources from the response id) is not reached before that first request. -/
def handleSubmit (s : EncounterFormState) (patientId : String) :
    EncounterFormState × Option FHIREncounter :=
  let newErrors := validateFormErrors s
  if newErrors.isEmpty then
    ({ s with errors := newErrors, isSubmitting := true,
              submitError := none, submitSuccess := false },
     some (toFHIREncounter (formClinicalEncounter s) patientId))
  else
    ({ s with errors := newErrors }, none)

/-! ## LOINC debounced search (EncounterForm.tsx, handleLoincSearch)

Timers are part of the state: a scheduled `setTimeout` is recorded as the
pending timer together with its captured search term and its delay in
milliseconds; `clearTimeout` drops it. Firing the pending timer invokes
`LoincService.searchLoincCodes` with the captured term — that invocation is
what the firing step reports. -/

structure LoincCode where
  code : String
  displayName : String
  longCommonName : String
  shortName : String
deriving Repr, DecidableEq

structure LoincTimer where
  term : String
  delayMs : Nat
deriving Repr, DecidableEq

structure LoincSearchState where
  pendingTimer : Option LoincTimer
  results : List LoincCode
  showResults : Bool
  isSearching : Bool
  searchError : Option String
deriving Repr, DecidableEq

/-- `handleLoincSearch`: any previously scheduled timer is cleared first; a
term shorter than 2 characters clears the results and returns without
scheduling; otherwise the searching flag is set and a new 500 ms timer is
scheduled with the term. -/
def handleLoincSearch (s : LoincSearchState) (searchTerm : String) : LoincSearchState :=
  let s := { s with pendingTimer := none }
  if searchTerm.length < 2 then
    { s with results := [], showResults := false }
  else
    { s with isSearching := true, searchError := none,
             pendingTimer := some { term := searchTerm, delayMs := 500 } }

/-- Firing the debounce window: the invocations of
`LoincService.searchLoincCodes` made when the pending timer (if any)
elapses. -/
def fireLoincTimer (s : LoincSearchState) : List String :=
  match s.pendingTimer with
  | some timer => [timer.term]
  | none => []

/-- A burst of keystrokes, each handled by `handleLoincSearch` before any
timer fires. -/
def typeLoincSequence (s : LoincSearchState) (terms : List String) : LoincSearchState :=
  terms.foldl handleLoincSearch s

/-! ## Sample values used by witnesses -/

/-- The encounter form state as first rendered (the `useState` initial
values). -/
def initialEncounterFormState : EncounterFormState :=
  { encounterType := "Ambulatory", startDate := "", endDate := ""
    observations := []
    newObservation := { loincCode := "", method := "", unitOfMeasure := "", value := "" }
    observationNames := [], newObservationName := ""
    medications := []
    newMedication := { loincCode := "", method := "", unitOfMeasure := "", value := "" }
    medicationNames := [], newMedicationName := ""
    diagnoses := []
    newDiagnosis := { description := "", diagnosisCode := "", status := "" }
    diagnosisNames := [], newDiagnosisName := ""
    allergies := []
    newAllergy := { description := "", active := true }
    errors := [], isSubmitting := false, submitError := none, submitSuccess := false }

/-- A form state whose pending observation and medication are fully filled
in. -/
def filledEncounterFormState : EncounterFormState :=
  { initialEncounterFormState with
    newObservation :=
      { loincCode := "2345-7", method := "Blood test", unitOfMeasure := "mg/dL", value := "95" }
    newMedication :=
      { loincCode := "373994007", method := "oral", unitOfMeasure := "mg", value := "500" } }

/-- A sample new encounter of type Emergency. -/
def sampleEmergencyEncounter : NewClinicalEncounter :=
  { encounterType := "Emergency", startDate := "2024-01-01T10:00", endDate := none
    observations := [{ loincCode := "2345-7", method := "Blood test",
                       unitOfMeasure := "mg/dL", value := "95" }]
    medications := [], diagnoses := [], allergies := [] }

/-! ## Claims about the FHIR converters -/

/-- C1: for every domain encounter whose type is one of the five supported
values, the class-code-to-type mapping of `fromFHIREncounter`, applied to
the FHIR class that `toFHIREncounter` produces via
`mapEncounterTypeToFHIRClass`, returns the original type — and so does the
full `fromFHIREncounter` composition. -/
theorem C1_encounterType_roundtrip (e : NewClinicalEncounter) (patientId now : String)
    (h : e.encounterType ∈ supportedEncounterTypes) :
    mapFHIRClassToEncounterType (toFHIREncounter e patientId).class = e.encounterType ∧
    (fromFHIREncounter now (toFHIREncounter e patientId)).encounterType = e.encounterType := by
  have hclass : (toFHIREncounter e patientId).class =
      mapEncounterTypeToFHIRClass e.encounterType := rfl
  have hmap : mapFHIRClassToEncounterType (toFHIREncounter e patientId).class =
      e.encounterType := by
    rw [hclass]
    simp only [supportedEncounterTypes, List.mem_cons, List.not_mem_nil, or_false] at h
    rcases h with h | h | h | h | h <;> rw [h] <;> decide
  exact ⟨hmap, hmap⟩

theorem C1_encounterType_roundtrip_witness :
    sampleEmergencyEncounter.encounterType ∈ supportedEncounterTypes ∧
    (mapFHIRClassToEncounterType
        (toFHIREncounter sampleEmergencyEncounter "p1").class = "Emergency" ∧
      (fromFHIREncounter "2024-02-02T00:00:00.000Z"
        (toFHIREncounter sampleEmergencyEncounter "p1")).encounterType = "Emergency") :=
  ⟨by decide, C1_encounterType_roundtrip sampleEmergencyEncounter "p1"
    "2024-02-02T00:00:00.000Z" (by decide)⟩

/-- C9: for every encounter whose type is outside the five supported values,
the FHIR encounter produced by `toFHIREncounter` has class code `AMB` (the
default branch of `mapEncounterTypeToFHIRClass`). -/
theorem C9_unmapped_type_defaults_to_AMB (e : NewClinicalEncounter) (patientId : String)
    (h : e.encounterType ∉ supportedEncounterTypes) :
    (toFHIREncounter e patientId).class.code = some "AMB" := by
  simp only [supportedEncounterTypes, List.mem_cons, List.not_mem_nil, or_false,
    not_or] at h
  obtain ⟨h1, h2, h3, h4, h5⟩ := h
  simp [toFHIREncounter, mapEncounterTypeToFHIRClass, createCoding, h1, h2, h3, h4, h5]

theorem C9_unmapped_type_defaults_to_AMB_witness :
    ({ sampleEmergencyEncounter with encounterType := "Unknown" }.encounterType ∉
      supportedEncounterTypes) ∧
    (toFHIREncounter { sampleEmergencyEncounter with encounterType := "Unknown" }
      "p1").class.code = some "AMB" :=
  ⟨by decide, C9_unmapped_type_defaults_to_AMB
    { sampleEmergencyEncounter with encounterType := "Unknown" } "p1" (by decide)⟩

/-- C10: `toFHIRAllergyIntolerance` never reads the `active` flag: the
resources produced for `{description, active := true}` and
`{description, active := false}` are identical, their clinical status coding
is always `active`, and the detail-view reconstruction
(`clinicalStatus?.coding?.[0]?.code === 'active'`) therefore reads every
allergy stored through this converter back as active. -/
theorem C10_allergy_active_flag_ignored (description patientId : String)
    (encounterId : Option String) :
    toFHIRAllergyIntolerance { description := description, active := true }
        patientId encounterId =
      toFHIRAllergyIntolerance { description := description, active := false }
        patientId encounterId ∧
    ((firstCoding (toFHIRAllergyIntolerance { description := description, active := false }
        patientId encounterId).clinicalStatus).bind Coding.code) = some "active" ∧
    allergyActiveFromFHIR (toFHIRAllergyIntolerance
        { description := description, active := false } patientId encounterId) = true := by
  refine ⟨rfl, ?_, ?_⟩ <;>
    simp [toFHIRAllergyIntolerance, allergyActiveFromFHIR, firstCoding,
      createCodeableConcept, createCoding]

/-- C4: `fromFHIREncounter` returns empty child-resource lists for every
input, and the detail-view aggregation step attaches to an encounter exactly
the fetched resources whose `encounter.reference` equals
`Encounter/` followed by the encounter id. -/
theorem C4_children_attached_by_reference_only :
    (∀ (now : String) (f : FHIREncounter),
      (fromFHIREncounter now f).observations = [] ∧
      (fromFHIREncounter now f).medications = [] ∧
      (fromFHIREncounter now f).diagnoses = [] ∧
      (fromFHIREncounter now f).allergies = []) ∧
    (∀ (e : ClinicalEncounter) (fetchedObservations : List FHIRObservation)
        (fetchedMedications : List FHIRMedicationRequest)
        (fetchedConditions : List FHIRCondition)
        (fetchedAllergies : List FHIRAllergyIntolerance),
      (∀ o, o ∈ (attachEncounterResources e fetchedObservations fetchedMedications
          fetchedConditions fetchedAllergies).observations ↔
        ∃ obs, obs ∈ fetchedObservations ∧
          obs.encounter.bind Reference.reference = some ("Encounter/" ++ e.id) ∧
          o = observationToDomain obs) ∧
      (attachEncounterResources e fetchedObservations fetchedMedications
          fetchedConditions fetchedAllergies).medications =
        (fetchedMedications.filter
          (fun med => matchesEncounter med.encounter e.id)).map medicationToDomain ∧
      (attachEncounterResources e fetchedObservations fetchedMedications
          fetchedConditions fetchedAllergies).diagnoses =
        (fetchedConditions.filter
          (fun cond => matchesEncounter cond.encounter e.id)).map conditionToDomain ∧
      (attachEncounterResources e fetchedObservations fetchedMedications
          fetchedConditions fetchedAllergies).allergies =
        (fetchedAllergies.filter
          (fun allergy => matchesEncounter allergy.encounter e.id)).map allergyToDomain) := by
  constructor
  · intro now f
    exact ⟨rfl, rfl, rfl, rfl⟩
  · intro e fetchedObservations fetchedMedications fetchedConditions fetchedAllergies
    refine ⟨?_, rfl, rfl, rfl⟩
    intro o
    simp only [attachEncounterResources, List.mem_map, List.mem_filter,
      matchesEncounter, beq_iff_eq]
    constructor
    · rintro ⟨obs, ⟨hmem, href⟩, rfl⟩
      exact ⟨obs, hmem, href, rfl⟩
    · rintro ⟨obs, hmem, href, rfl⟩
      exact ⟨obs, ⟨hmem, href⟩, rfl⟩

/-! ## Claims about the API client -/

/-- C2 counterexample: `getPatientById` does not unwrap the response
envelope. On a 200 response whose body is the envelope
`{success := true, data := "inner", count := 1, message := "ok"}`, the
returned `data` is the whole raw envelope and the returned `message` is
`none`, whereas the unwrapping the claim describes (`getPatientByIdSpec`,
the spec-side definition) would return the inner data and the envelope
message — and `none ≠ some "ok"`. -/
theorem C2_getPatientById_does_not_unwrap :
    (getPatientById (FetchOutcome.response 200 ""
        ({ success := true, data := "inner", count := some 1, message := "ok" } :
          Envelope String))).map ApiResponse.data =
      Except.ok ({ success := true, data := "inner", count := some 1, message := "ok" } :
        Envelope String) ∧
    (getPatientById (FetchOutcome.response 200 ""
        ({ success := true, data := "inner", count := some 1, message := "ok" } :
          Envelope String))).map ApiResponse.message = Except.ok none ∧
    (getPatientByIdSpec (FetchOutcome.response 200 ""
        ({ success := true, data := "inner", count := some 1, message := "ok" } :
          Envelope String))).map ApiResponse.data = Except.ok "inner" ∧
    (getPatientByIdSpec (FetchOutcome.response 200 ""
        ({ success := true, data := "inner", count := some 1, message := "ok" } :
          Envelope String))).map ApiResponse.message = Except.ok (some "ok") ∧
    (Except.ok (none : Option String) : Except String (Option String)) ≠
      Except.ok (some "ok") := by
  refine ⟨rfl, rfl, rfl, rfl, ?_⟩
  intro hcontra
  simp at hcontra

/-- C2 amended: the collection and create methods (here `getPatients`,
`getPatientEncounters`, `createEncounter`) unwrap the backend envelope into
`{data, status, message}` with the inner data and the envelope message;
`getPatientById`, `updatePatient` and `markPatientAsDeceased` instead return
the raw response body as `data`, with no message. -/
theorem C2_envelope_unwrapping_by_method {β : Type}
    (status : Nat) (bodyText : String)
    (envPatients : Envelope (List FHIRPatient))
    (envEncounters : Envelope (List FHIREncounter))
    (envEncounter : Envelope FHIREncounter)
    (body : β)
    (h : 200 ≤ status ∧ status < 300) :
    getPatients (FetchOutcome.response status bodyText envPatients) =
      Except.ok { data := envPatients.data, status := status,
                  message := some envPatients.message } ∧
    getPatientEncounters (FetchOutcome.response status bodyText envEncounters) =
      Except.ok { data := envEncounters.data, status := status,
                  message := some envEncounters.message } ∧
    createEncounter (FetchOutcome.response status bodyText envEncounter) =
      Except.ok { data := envEncounter.data, status := status,
                  message := some envEncounter.message } ∧
    getPatientById (FetchOutcome.response status bodyText body) =
      Except.ok { data := body, status := status, message := none } ∧
    updatePatient (FetchOutcome.response status bodyText body) =
      Except.ok { data := body, status := status, message := none } ∧
    markPatientAsDeceased (FetchOutcome.response status bodyText body) =
      Except.ok { data := body, status := status, message := none } := by
  have hok : httpOk status = true := by
    simp [httpOk]
    exact h
  refine ⟨?_, ?_, ?_, ?_, ?_, ?_⟩ <;>
    simp [getPatients, getPatientEncounters, createEncounter, getPatientById,
      updatePatient, markPatientAsDeceased, request, unwrapEnvelope, Except.map, hok]

theorem C2_envelope_unwrapping_by_method_witness :
    (200 ≤ 200 ∧ 200 < 300) ∧
    getPatients (FetchOutcome.response 200 ""
        ({ success := true, data := [], count := some 0, message := "ok" } :
          Envelope (List FHIRPatient))) =
      Except.ok { data := [], status := 200, message := some "ok" } ∧
    getPatientById (FetchOutcome.response 200 "" (42 : Nat)) =
      Except.ok { data := 42, status := 200, message := none } :=
  ⟨by decide,
   (C2_envelope_unwrapping_by_method 200 ""
      { success := true, data := [], count := some 0, message := "ok" }
      { success := true, data := [], count := some 0, message := "ok" }
      { success := true,
        data := toFHIREncounter sampleEmergencyEncounter "p1",
        count := none, message := "ok" }
      (42 : Nat) (by decide)).1,
   (C2_envelope_unwrapping_by_method 200 ""
      { success := true, data := [], count := some 0, message := "ok" }
      { success := true, data := [], count := some 0, message := "ok" }
      { success := true,
        data := toFHIREncounter sampleEmergencyEncounter "p1",
        count := none, message := "ok" }
      (42 : Nat) (by decide)).2.2.2.1⟩

/-! ## Claims about the encounter form -/

/-- C3: whenever the start date is empty, or the encounter type is empty, or
all four child-resource lists are empty, `validateForm` produces at least
one error, and `handleSubmit` stores those errors and returns without
issuing any request: the only state change is the error list. -/
theorem C3_invalid_form_blocks_submission (s : EncounterFormState) (patientId : String)
    (h : s.startDate = "" ∨ s.encounterType = "" ∨
      (s.observations = [] ∧ s.medications = [] ∧ s.diagnoses = [] ∧ s.allergies = [])) :
    validateFormErrors s ≠ [] ∧
    (handleSubmit s patientId).2 = none ∧
    (handleSubmit s patientId).1 = { s with errors := validateFormErrors s } := by
  have herr : validateFormErrors s ≠ [] := by
    intro hnil
    rw [validateFormErrors] at hnil
    rcases List.append_eq_nil.mp hnil with ⟨hab, hc⟩
    rcases List.append_eq_nil.mp hab with ⟨ha, hb⟩
    rcases h with h | h | h
    · rw [if_pos h] at hb
      exact List.cons_ne_nil _ _ hb
    · rw [if_pos h] at ha
      exact List.cons_ne_nil _ _ ha
    · rw [if_pos h] at hc
      exact List.cons_ne_nil _ _ hc
  have hempty : (validateFormErrors s).isEmpty = false := by
    cases hE : validateFormErrors s with
    | nil => exact absurd hE herr
    | cons x xs => rfl
  refine ⟨herr, ?_, ?_⟩ <;> simp [handleSubmit, hempty]

theorem C3_invalid_form_blocks_submission_witness :
    initialEncounterFormState.startDate = "" ∧
    (validateFormErrors initialEncounterFormState ≠ [] ∧
      (handleSubmit initialEncounterFormState "p1").2 = none ∧
      (handleSubmit initialEncounterFormState "p1").1 =
        { initialEncounterFormState with
          errors := validateFormErrors initialEncounterFormState }) :=
  ⟨rfl, C3_invalid_form_blocks_submission initialEncounterFormState "p1" (Or.inl rfl)⟩

/-- C5: `addObservation` appends the pending observation exactly when all
four of its fields are non-empty, and leaves the observation list unchanged
when any of them is empty; `addMedication` behaves the same way on the
pending medication. -/
theorem C5_add_requires_all_four_fields (s : EncounterFormState) :
    ((s.newObservation.loincCode ≠ "" ∧ s.newObservation.method ≠ "" ∧
        s.newObservation.unitOfMeasure ≠ "" ∧ s.newObservation.value ≠ "") →
      (addObservation s).observations = s.observations ++ [s.newObservation]) ∧
    ((s.newObservation.loincCode = "" ∨ s.newObservation.method = "" ∨
        s.newObservation.unitOfMeasure = "" ∨ s.newObservation.value = "") →
      (addObservation s).observations = s.observations) ∧
    ((s.newMedication.loincCode ≠ "" ∧ s.newMedication.method ≠ "" ∧
        s.newMedication.unitOfMeasure ≠ "" ∧ s.newMedication.value ≠ "") →
      (addMedication s).medications = s.medications ++ [s.newMedication]) ∧
    ((s.newMedication.loincCode = "" ∨ s.newMedication.method = "" ∨
        s.newMedication.unitOfMeasure = "" ∨ s.newMedication.value = "") →
      (addMedication s).medications = s.medications) := by
  refine ⟨?_, ?_, ?_, ?_⟩
  · intro h
    rw [addObservation, if_pos h]
  · intro h
    have hneg : ¬(s.newObservation.loincCode ≠ "" ∧ s.newObservation.method ≠ "" ∧
        s.newObservation.unitOfMeasure ≠ "" ∧ s.newObservation.value ≠ "") := by
      tauto
    rw [addObservation, if_neg hneg]
  · intro h
    rw [addMedication, if_pos h]
  · intro h
    have hneg : ¬(s.newMedication.loincCode ≠ "" ∧ s.newMedication.method ≠ "" ∧
        s.newMedication.unitOfMeasure ≠ "" ∧ s.newMedication.value ≠ "") := by
      tauto
    rw [addMedication, if_neg hneg]

theorem C5_add_requires_all_four_fields_witness :
    (addObservation filledEncounterFormState).observations =
      filledEncounterFormState.observations ++ [filledEncounterFormState.newObservation] ∧
    (addObservation initialEncounterFormState).observations =
      initialEncounterFormState.observations ∧
    (addMedication filledEncounterFormState).medications =
      filledEncounterFormState.medications ++ [filledEncounterFormState.newMedication] ∧
    (addMedication initialEncounterFormState).medications =
      initialEncounterFormState.medications :=
  ⟨(C5_add_requires_all_four_fields filledEncounterFormState).1 (by decide),
   (C5_add_requires_all_four_fields initialEncounterFormState).2.1 (Or.inl rfl),
   (C5_add_requires_all_four_fields filledEncounterFormState).2.2.1 (by decide),
   (C5_add_requires_all_four_fields initialEncounterFormState).2.2.2 (Or.inl rfl)⟩

/-- C6: `ApiService.request` turns every non-2xx response into a thrown
error whose message carries the HTTP status code and the response body text,
propagates a network failure unchanged, and yields a `{data, status}` result
only for 2xx responses. -/
theorem C6_request_failure_policy {β : Type} :
    (∀ (status : Nat) (bodyText : String) (body : β),
      ¬(200 ≤ status ∧ status < 300) →
      request (FetchOutcome.response status bodyText body) =
        Except.error ("HTTP error! status: " ++ toString status ++ " - " ++ bodyText)) ∧
    (∀ msg : String,
      request (@FetchOutcome.networkError β msg) = Except.error msg) ∧
    (∀ (outcome : FetchOutcome β) (r : ApiResponse β),
      request outcome = Except.ok r → 200 ≤ r.status ∧ r.status < 300) := by
  refine ⟨?_, ?_, ?_⟩
  · intro status bodyText body hno
    have hok : httpOk status = false := by
      rw [httpOk]
      exact decide_eq_false hno
    simp [request, hok]
  · intro msg
    rfl
  · intro outcome r hr
    cases outcome with
    | networkError msg => simp [request] at hr
    | response status bodyText body =>
      rw [request] at hr
      by_cases hok : httpOk status = true
      · rw [if_pos hok] at hr
        have hstat : r.status = status := by
          cases hr
          rfl
        rw [hstat]
        exact of_decide_eq_true hok
      · rw [if_neg hok] at hr
        exact absurd hr (by simp)

theorem C6_request_failure_policy_witness :
    (¬(200 ≤ 404 ∧ 404 < 300) ∧
      request (FetchOutcome.response 404 "not found" (0 : Nat)) =
        Except.error ("HTTP error! status: " ++ toString 404 ++ " - " ++ "not found")) ∧
    request (@FetchOutcome.networkError Nat "Failed to fetch") =
      Except.error "Failed to fetch" ∧
    (200 ≤ ({ data := 0, status := 200, message := none } : ApiResponse Nat).status ∧
      ({ data := 0, status := 200, message := none } : ApiResponse Nat).status < 300) :=
  ⟨⟨by decide, C6_request_failure_policy.1 404 "not found" 0 (by decide)⟩,
   C6_request_failure_policy.2.1 "Failed to fetch",
   C6_request_failure_policy.2.2 (FetchOutcome.response 200 "" 0)
     { data := 0, status := 200, message := none } rfl⟩

/-! ## Claims about the debounced terminology search -/

/-- C7: a search term shorter than 2 characters clears the results and
schedules no timer, so no code search is made for it; a term of length at
least 2 replaces whatever timer was pending with a fresh 500 ms timer for
that term, so after a burst of keystrokes ending in such a term exactly one
code search — for the last term — runs when the debounce window elapses. -/
theorem C7_debounce_single_search (s : LoincSearchState) (term : String)
    (prior : List String) (last : String) :
    (term.length < 2 →
      handleLoincSearch s term =
        { s with pendingTimer := none, results := [], showResults := false } ∧
      fireLoincTimer (handleLoincSearch s term) = []) ∧
    (2 ≤ term.length →
      (handleLoincSearch s term).pendingTimer = some { term := term, delayMs := 500 }) ∧
    (2 ≤ last.length →
      (typeLoincSequence s (prior ++ [last])).pendingTimer =
        some { term := last, delayMs := 500 } ∧
      fireLoincTimer (typeLoincSequence s (prior ++ [last])) = [last]) := by
  refine ⟨?_, ?_, ?_⟩
  · intro h
    constructor
    · rw [handleLoincSearch]
      simp only [if_pos h]
    · rw [handleLoincSearch]
      simp only [if_pos h]
      rfl
  · intro h
    rw [handleLoincSearch]
    simp only [if_neg (Nat.not_lt.mpr h)]
  · intro h
    have hfold : typeLoincSequence s (prior ++ [last]) =
        handleLoincSearch (typeLoincSequence s prior) last := by
      rw [typeLoincSequence, typeLoincSequence, List.foldl_append]
      rfl
    have hpend : (handleLoincSearch (typeLoincSequence s prior) last).pendingTimer =
        some { term := last, delayMs := 500 } := by
      rw [handleLoincSearch]
      simp only [if_neg (Nat.not_lt.mpr h)]
    constructor
    · rw [hfold, hpend]
    · rw [hfold, fireLoincTimer, hpend]

/-- The LOINC search state as first rendered. -/
def initialLoincSearchState : LoincSearchState :=
  { pendingTimer := none, results := [], showResults := false
    isSearching := false, searchError := none }

theorem C7_debounce_single_search_witness :
    ("g".length < 2 ∧
      handleLoincSearch initialLoincSearchState "g" =
        { initialLoincSearchState with
          pendingTimer := none, results := [], showResults := false } ∧
      fireLoincTimer (handleLoincSearch initialLoincSearchState "g") = []) ∧
    (2 ≤ "glucosa".length ∧
      (typeLoincSequence initialLoincSearchState
        (["g", "gl", "glu"] ++ ["glucosa"])).pendingTimer =
          some { term := "glucosa", delayMs := 500 } ∧
      fireLoincTimer (typeLoincSequence initialLoincSearchState
        (["g", "gl", "glu"] ++ ["glucosa"])) = ["glucosa"]) :=
  ⟨⟨by decide, (C7_debounce_single_search initialLoincSearchState "g" [] "xx").1
      (by decide)⟩,
   ⟨by decide, (C7_debounce_single_search initialLoincSearchState "xx"
      ["g", "gl", "glu"] "glucosa").2.2 (by decide)⟩⟩

/-! ## Claims about the patients view-model -/

/-- C8: `loadPatients` sets the loading flag and clears the stored error
before the request, clears the loading flag on every completion — success or
failure — and on failure stores the error message string in state (the
transition is total: the failure is absorbed into the state, not
rethrown). -/
theorem C8_loadPatients_loading_and_error_handling (now : String)
    (s : PatientsViewModelState) (result : Except String (List FHIRPatient)) :
    (loadPatientsStart s).isLoading = true ∧
    (loadPatientsStart s).error = none ∧
    (loadPatients now s result).isLoading = false ∧
    (∀ msg, (loadPatients now s (Except.error msg)).error = some msg) ∧
    (∀ fhirPatients, (loadPatients now s (Except.ok fhirPatients)).patients =
      fhirPatients.map (displayPatient now)) := by
  refine ⟨rfl, rfl, ?_, fun msg => rfl, fun fhirPatients => rfl⟩
  cases result with
  | ok fhirPatients => rfl
  | error msg => rfl

end OntologyForm
